import Mathlib

/-!
Verification development for the `sample-ai-agent` stock-analysis repository.

The Python sources under `src/` are shallowly embedded here:

* `src/domain/entities/stock.py`      → `Stock`, `Stock.price_change`, `Stock.price_change_percent`
* `src/domain/entities/analysis.py`   → `TrendDirection`, `RiskLevel`, `Analysis`
* `src/domain/entities/summary.py`    → `InsightLevel`, `SummaryType`, `Insight`, `Summary`
* `src/application/services/analysis_service.py` → `calculate_valuation_score`,
  `calculate_growth_potential`, `calculate_simple_rsi`, `assess_risk_level`,
  `identify_risk_factors`, `analyze_stock`, `analyze_multiple_stocks`
* `src/application/services/summary_service.py`  → `generate_stock_analysis_summary`,
  `generate_daily_overview`, `create_detailed_market_analysis`,
  `create_detailed_stock_analysis` and the insight/recommendation helpers

Modelling conventions:

* Python `Decimal`/`float` values are modelled as `ℚ`.  `Optional[...]` fields are
  `Option _`; Python truthiness of an optional number (`if x:`) is
  "present and nonzero" (`truthyQ` / `truthyZ`).
* A raised Python exception is modelled with `Except PyError _`; the constructor
  names the Python exception class that is raised at that program point.
* `statistics.stdev` returns an irrational square root, so the `Analysis` record
  stores the sample *variance* (`volatility_sq`); every use in the sources
  compares `volatility` against a constant threshold, and each such comparison is
  embedded as the equivalent comparison of the variance against the squared
  threshold (stdev is nonnegative, so `stdev > c ↔ variance > c²` for `c ≥ 0`).
* `uuid.uuid4()` and `datetime.now()` are environment inputs; the `id`, `title`
  and `created_at` fields of a summary carry no analysed content and are omitted
  from the embedded `Summary` record.
* `str(...)` of an exact number is modelled by `pyStr`; `f"{x:.2f}"` by `fmt2`
  (round-half-even to two decimals, the rounding mode of Python formatting);
  `f"{x:,}"` by `pyFmtComma`.
-/

namespace StockAgent

/-- Python truthiness of an optional numeric value: `if x:` is true exactly when
the value is present and nonzero. -/
def truthyQ (o : Option ℚ) : Bool :=
  match o with
  | none => false
  | some x => x ≠ 0

/-- Truthiness of an optional integer (Python `int | None`). -/
def truthyZ (o : Option ℤ) : Bool :=
  match o with
  | none => false
  | some x => x ≠ 0

/-- Arithmetic mean of a list (Python `statistics.mean`); the sources only apply
it to non-empty lists. -/
def listMean (l : List ℚ) : ℚ := l.sum / (l.length : ℚ)

/-- Sample variance (square of Python `statistics.stdev`, which uses the `n−1`
denominator); the sources only apply `stdev` to lists with at least two
elements. -/
def sampleVariance (l : List ℚ) : ℚ :=
  ((l.map (fun x => (x - listMean l) ^ 2)).sum) / ((l.length : ℚ) - 1)

/-- Consecutive close-to-close changes `l[i] - l[i-1]` of a price list. -/
def changesOf (l : List ℚ) : List ℚ :=
  (l.zip l.tail).map (fun p => p.2 - p.1)

/-- Round half to even (the rounding used by Python `round` and `format`),
returning an integer. -/
def roundHalfEven (q : ℚ) : ℤ :=
  let f := Rat.floor q
  let r := q - (f : ℚ)
  if r < 1 / 2 then f
  else if 1 / 2 < r then f + 1
  else if f % 2 = 0 then f else f + 1

/-- Python `round(q, 2)`: round half to even at two decimal places. -/
def round2 (q : ℚ) : ℚ := (roundHalfEven (100 * q) : ℚ) / 100

/-- Embedding of the `Stock` pydantic entity (`src/domain/entities/stock.py`).
`symbol` and `name` are required strings; all numeric fields are optional. -/
structure Stock where
  symbol : String
  name : String
  current_price : Option ℚ := none
  previous_close : Option ℚ := none
  volume : Option ℤ := none
  market_cap : Option ℤ := none
  pe_ratio : Option ℚ := none
  dividend_yield : Option ℚ := none
deriving DecidableEq, Repr

/-- `Stock.price_change` property: `current - previous` when both are truthy. -/
def Stock.price_change (s : Stock) : Option ℚ :=
  match s.current_price, s.previous_close with
  | some c, some p => if c ≠ 0 ∧ p ≠ 0 then some (c - p) else none
  | _, _ => none

/-- `Stock.price_change_percent` property: requires `current_price` truthy,
`previous_close` truthy and `previous_close > 0`. -/
def Stock.price_change_percent (s : Stock) : Option ℚ :=
  match s.current_price, s.previous_close with
  | some c, some p => if c ≠ 0 ∧ p ≠ 0 ∧ 0 < p then some ((c - p) / p * 100) else none
  | _, _ => none

/-- `TrendDirection` enum from `src/domain/entities/analysis.py`. -/
inductive TrendDirection where
  | up
  | down
  | sideways
deriving DecidableEq, Repr

/-- The `.value` string of a `TrendDirection` member. -/
def TrendDirection.value : TrendDirection → String
  | .up => "up"
  | .down => "down"
  | .sideways => "sideways"

/-- `RiskLevel` enum from `src/domain/entities/analysis.py`. -/
inductive RiskLevel where
  | low
  | medium
  | high
deriving DecidableEq, Repr

/-- The `.value` string of a `RiskLevel` member. -/
def RiskLevel.value : RiskLevel → String
  | .low => "low"
  | .medium => "medium"
  | .high => "high"

/-- Embedding of the `Analysis` entity; every analytic field defaults to the
pydantic default `None` (resp. `[]`).  `volatility_sq` stores the square of the
Python `volatility` field (see the module comment). -/
structure Analysis where
  stock_symbol : String
  trend_direction : Option TrendDirection := none
  volatility_sq : Option ℚ := none
  moving_average_5d : Option ℚ := none
  moving_average_20d : Option ℚ := none
  rsi : Option ℚ := none
  valuation_score : Option ℤ := none
  growth_potential : Option ℤ := none
  risk_level : Option RiskLevel := none
  risk_factors : List String := []
  daily_return : Option ℚ := none
deriving DecidableEq, Repr

/-- `SimpleAnalysisEngine._calculate_simple_rsi`
(`analysis_service.py`, lines 85–117).  Returns the neutral `50` whenever the
history is shorter than `period + 1` points; otherwise iterates over the first
`min (length, period+1)` points, splitting each consecutive change into the
gain series (positive changes) and the loss series (absolute values of
non-positive changes). -/
def calculate_simple_rsi (historical_data : List ℚ) (period : ℕ := 14) : ℚ :=
  if historical_data.length < period + 1 then 50
  else
    let cs := changesOf (historical_data.take (min historical_data.length (period + 1)))
    let gains := cs.map (fun c => if 0 < c then c else 0)
    let losses := cs.map (fun c => if 0 < c then 0 else |c|)
    if gains = [] ∨ losses = [] then 50
    else
      let avg_gain := listMean gains
      let avg_loss := listMean losses
      if avg_loss = 0 then 100
      else round2 (100 - 100 / (1 + avg_gain / avg_loss))

/-- `SimpleAnalysisEngine._calculate_valuation_score`
(`analysis_service.py`, lines 119–149).  The `elif` ladder is embedded in the
source's order: `< 10`, `< 15`, `> 25`, `> 35` for P/E and `> 3`, `> 5` for the
dividend yield (the `> 35` and `> 5` branches are shadowed by the earlier
tests).  The enclosing `try/except` cannot fire (all operations are total
numeric comparisons) and is not modelled. -/
def calculate_valuation_score (stock : Stock) : ℤ :=
  let score : ℤ := 5
  let score :=
    match stock.pe_ratio with
    | some pe =>
        if pe ≠ 0 then
          if pe < 10 then score + 2
          else if pe < 15 then score + 1
          else if pe > 25 then score - 1
          else if pe > 35 then score - 2
          else score
        else score
    | none => score
  let score :=
    match stock.dividend_yield with
    | some dy =>
        if dy ≠ 0 then
          if dy > 3 then score + 1
          else if dy > 5 then score + 2
          else score
        else score
    | none => score
  max 1 (min 10 score)

/-- `SimpleAnalysisEngine._calculate_growth_potential`
(`analysis_service.py`, lines 151–181), with the source's `elif` order:
`> 5`, `> 10`, `< -5`, `< -10` for the percentage change (the `> 10` and
`< -10` branches are shadowed) and `< 10_000_000_000`, `> 1_000_000_000_000`
for the market cap. -/
def calculate_growth_potential (stock : Stock) : ℤ :=
  let score : ℤ := 5
  let score :=
    match stock.price_change_percent with
    | some pcp =>
        if pcp ≠ 0 then
          if pcp > 5 then score + 1
          else if pcp > 10 then score + 2
          else if pcp < -5 then score - 1
          else if pcp < -10 then score - 2
          else score
        else score
    | none => score
  let score :=
    match stock.market_cap with
    | some mc =>
        if mc ≠ 0 then
          if mc < 10000000000 then score + 1
          else if mc > 1000000000000 then score - 1
          else score
        else score
    | none => score
  max 1 (min 10 score)

/-- `SimpleAnalysisEngine._assess_risk_level` (`analysis_service.py`,
lines 183–210).  `volatility > 5` / `volatility > 10` become
`volatility_sq > 25` / `volatility_sq > 100`. -/
def assess_risk_level (stock : Stock) (analysis : Analysis) : RiskLevel :=
  let risk_score : ℤ := 0
  let risk_score :=
    if truthyQ analysis.volatility_sq && decide (analysis.volatility_sq.getD 0 > 25) then
      risk_score + 1
    else risk_score
  let risk_score :=
    if truthyQ analysis.volatility_sq && decide (analysis.volatility_sq.getD 0 > 100) then
      risk_score + 1
    else risk_score
  let risk_score :=
    if truthyQ stock.pe_ratio &&
        (decide (stock.pe_ratio.getD 0 > 30) || decide (stock.pe_ratio.getD 0 < 5)) then
      risk_score + 1
    else risk_score
  let risk_score :=
    if truthyQ stock.price_change_percent && decide (|stock.price_change_percent.getD 0| > 10) then
      risk_score + 1
    else risk_score
  if risk_score ≥ 3 then RiskLevel.high
  else if risk_score ≥ 1 then RiskLevel.medium
  else RiskLevel.low

/-- `SimpleAnalysisEngine._identify_risk_factors` (`analysis_service.py`,
lines 212–232).  `volatility > 8` becomes `volatility_sq > 64`. -/
def identify_risk_factors (stock : Stock) (analysis : Analysis) : List String :=
  let factors : List String := []
  let factors :=
    if truthyQ analysis.volatility_sq && decide (analysis.volatility_sq.getD 0 > 64) then
      factors ++ ["High price volatility"]
    else factors
  let factors :=
    if truthyQ stock.pe_ratio && decide (stock.pe_ratio.getD 0 > 35) then
      factors ++ ["High P/E ratio - potentially overvalued"]
    else factors
  let factors :=
    if truthyQ stock.price_change_percent && decide (stock.price_change_percent.getD 0 < -15) then
      factors ++ ["Significant recent price decline"]
    else factors
  let factors :=
    if truthyQ analysis.rsi && decide (analysis.rsi.getD 0 > 80) then
      factors ++ ["Overbought conditions (RSI > 80)"]
    else if truthyQ analysis.rsi && decide (analysis.rsi.getD 0 < 20) then
      factors ++ ["Oversold conditions (RSI < 20)"]
    else factors
  let factors :=
    if !truthyQ stock.dividend_yield || decide (stock.dividend_yield.getD 0 < 1) then
      factors ++ ["Low or no dividend yield"]
    else factors
  factors

/-- The daily percentage returns computed inside `analyze_stock`
(`analysis_service.py`, lines 36–42): one return per consecutive pair of
closes whose earlier close is positive. -/
def returnsOf (historical_data : List ℚ) : List ℚ :=
  (historical_data.zip historical_data.tail).filterMap
    (fun p => if 0 < p.1 then some ((p.2 - p.1) / p.1 * 100) else none)

/-- Python `l[-n:]`: the last `n` elements of a list. -/
def lastN (n : ℕ) (l : List ℚ) : List ℚ := l.drop (l.length - n)

/-- The trend block of `analyze_stock` (`analysis_service.py`, lines 24–33):
a fresh `Analysis` whose `daily_return` and `trend_direction` are set when the
stock's percentage change is truthy. -/
def trendStage (stock : Stock) : Analysis :=
  match stock.price_change_percent with
  | some pcp =>
      if pcp ≠ 0 then
        { stock_symbol := stock.symbol
          daily_return := some pcp
          trend_direction :=
            some (if pcp > 2 then TrendDirection.up
                  else if pcp < -2 then TrendDirection.down
                  else TrendDirection.sideways) }
      else { stock_symbol := stock.symbol }
  | none => { stock_symbol := stock.symbol }

/-- The volatility / moving-average block of `analyze_stock`
(`analysis_service.py`, lines 35–53).  `statistics.stdev` raises
`StatisticsError` when the return series has exactly one element; that raise is
the `Except.error` case (it is the only statement of the guarded block that can
raise). -/
def volStage (a : Analysis) (historical_data : List ℚ) : Except Unit Analysis :=
  if historical_data.length > 1 then
    let returns := returnsOf historical_data
    if returns.length = 0 then Except.ok a
    else if returns.length = 1 then Except.error ()
    else
      let a := { a with volatility_sq := some (sampleVariance returns) }
      let a :=
        if historical_data.length ≥ 5 then
          { a with moving_average_5d := some (listMean (lastN 5 historical_data)) }
        else a
      let a :=
        if historical_data.length ≥ 20 then
          { a with moving_average_20d := some (listMean (lastN 20 historical_data)) }
        else a
      Except.ok a
  else Except.ok a

/-- The RSI / scoring / risk block of `analyze_stock`
(`analysis_service.py`, lines 55–67); nothing in it can raise. -/
def scoreStage (stock : Stock) (historical_data : List ℚ) (a : Analysis) : Analysis :=
  let a := { a with rsi := if historical_data.isEmpty then none
                           else some (calculate_simple_rsi historical_data) }
  let a := { a with valuation_score := some (calculate_valuation_score stock) }
  let a := { a with growth_potential := some (calculate_growth_potential stock) }
  let a := { a with risk_level := some (assess_risk_level stock a) }
  { a with risk_factors := identify_risk_factors stock a }

/-- `SimpleAnalysisEngine.analyze_stock` (`analysis_service.py`, lines 17–73).
The `try/except` around the body catches the one possible exception (the
`stdev` raise in `volStage`) and returns the analysis in the partial state it
had reached; `historical_data = []` stands for both Python `None` and `[]`
(the code only tests their truthiness). -/
def analyze_stock (stock : Stock) (historical_data : List ℚ := []) : Analysis :=
  let a1 := trendStage stock
  match volStage a1 historical_data with
  | Except.error _ => a1
  | Except.ok a2 => scoreStage stock historical_data a2

/-- `SimpleAnalysisEngine.analyze_multiple_stocks`
(`analysis_service.py`, lines 75–83): `analyze_stock` with no history, per
stock, in input order. -/
def analyze_multiple_stocks (stocks : List Stock) : List Analysis :=
  stocks.map (fun s => analyze_stock s)

/-- Group a reversed digit list into blocks of three (least-significant block
first), for thousands separators. -/
def chunk3 : List Char → List (List Char)
  | a :: b :: c :: d :: rest => [a, b, c] :: chunk3 (d :: rest)
  | l => [l]

/-- Python `f"{n:,}"` for a natural number: decimal digits with `,` every three
digits. -/
def commaDigits (n : ℕ) : String :=
  let ds := (toString n).toList.reverse
  String.intercalate "," (((chunk3 ds).map (fun g => String.mk g.reverse)).reverse)

/-- Python `f"{n:,}"` for an integer. -/
def pyFmtComma (n : ℤ) : String :=
  (if n < 0 then "-" else "") ++ commaDigits n.natAbs

/-- Two-digit zero-padded rendering of a number below 100. -/
def pad2 (n : ℕ) : String := if n < 10 then "0" ++ toString n else toString n

/-- Python `f"{q:.2f}"`: fixed-point rendering with two decimals
(round half to even). -/
def fmt2 (q : ℚ) : String :=
  let n := roundHalfEven (100 * q)
  (if n < 0 then "-" else "") ++ toString (n.natAbs / 100) ++ "." ++ pad2 (n.natAbs % 100)

/-- Python `f"{q:+.2f}"`: like `fmt2` but with an explicit sign for
nonnegative values. -/
def fmt2Plus (q : ℚ) : String := if 0 ≤ q then "+" ++ fmt2 q else fmt2 q

/-- Python `str(...)` of an exact numeric value.  `Decimal` prints its stored
digits, which an exact rational cannot reproduce in general; no claim depends
on the digits, only on whether a value is rendered at all, so the embedding
renders the rational exactly. -/
def pyStr (q : ℚ) : String := toString q

/-- Python `f"¥{stock.current_price}"` body: `str` of an optional value prints
`None` when the value is absent. -/
def pyStrOpt (o : Option ℚ) : String :=
  match o with
  | none => "None"
  | some q => pyStr q

/-- Stable insert for a descending sort: the new element goes before the first
element with a strictly smaller key (so after any equal keys). -/
def insertDescBy {α : Type} (key : α → ℚ) (x : α) : List α → List α
  | [] => [x]
  | y :: ys => if key y < key x then x :: y :: ys else y :: insertDescBy key x ys

/-- Python `sorted(l, key, reverse=True)`: stable descending sort. -/
def sortDescBy {α : Type} (key : α → ℚ) (l : List α) : List α :=
  l.foldl (fun acc x => insertDescBy key x acc) []

/-- Stable insert for an ascending sort. -/
def insertAscBy {α : Type} (key : α → ℚ) (x : α) : List α → List α
  | [] => [x]
  | y :: ys => if key x < key y then x :: y :: ys else y :: insertAscBy key x ys

/-- Python `sorted(l, key)`: stable ascending sort. -/
def sortAscBy {α : Type} (key : α → ℚ) (l : List α) : List α :=
  l.foldl (fun acc x => insertAscBy key x acc) []

/-- The Python exceptions the narrative engine can raise, plus the error name
`EmptyDataset` that the specification prescribes for an empty batch report (no
code path produces it; it is needed to state claims about it). -/
inductive PyError where
  | indexError
  | typeError
  | zeroDivisionError
  | emptyDataset
deriving DecidableEq, Repr

/-- `InsightLevel` enum from `src/domain/entities/summary.py`. -/
inductive InsightLevel where
  | info
  | warning
  | critical
deriving DecidableEq, Repr

/-- `SummaryType` enum from `src/domain/entities/summary.py`. -/
inductive SummaryType where
  | daily_overview
  | stock_analysis
  | sector_summary
  | risk_alert
deriving DecidableEq, Repr

/-- `Insight` entity. -/
structure Insight where
  level : InsightLevel
  title : String
  description : String
  stock_symbols : List String
  confidence : Option ℚ
deriving DecidableEq, Repr

/-- `Summary` entity.  `id`, `title` and `created_at` come from `uuid4()` /
`datetime.now()` and are omitted (see the module comment); `key_metrics` is the
ordered label-to-display-string mapping. -/
structure Summary where
  summary_type : SummaryType
  executive_summary : String
  detailed_analysis : String
  key_metrics : List (String × String)
  insights : List Insight := []
  recommendations : List String := []
  stocks_analyzed : List String
  analysis_period : String
  confidence_score : ℚ
deriving DecidableEq, Repr

/-- The percentage change used as a sort key / display value once known to be
present (`getD 0` is never hit on the sorted sublists). -/
def pcpVal (s : Stock) : ℚ := s.price_change_percent.getD 0

/-- `SummaryService._create_detailed_stock_analysis`
(`summary_service.py`, lines 139–160). -/
def create_detailed_stock_analysis (stock : Stock) (analysis : Analysis) : String :=
  let parts : List String := []
  let parts :=
    if truthyQ stock.price_change_percent then
      parts ++ ["Price Movement: " ++ stock.name ++ " moved " ++
        fmt2Plus (pcpVal stock) ++ "% today."]
    else parts
  let parts :=
    if truthyQ analysis.moving_average_5d && truthyQ analysis.moving_average_20d then
      let ma_comparison :=
        if analysis.moving_average_5d.getD 0 > analysis.moving_average_20d.getD 0 then "above"
        else "below"
      parts ++ ["Technical: 5-day MA is " ++ ma_comparison ++
        " 20-day MA, indicating " ++
        (match analysis.trend_direction with
         | some t => t.value
         | none => "neutral") ++ " momentum."]
    else parts
  let parts :=
    if truthyQ stock.pe_ratio then
      let pe := stock.pe_ratio.getD 0
      let valuation_text :=
        if pe < 15 then "undervalued" else if pe > 25 then "overvalued" else "fairly valued"
      parts ++ ["Valuation: P/E ratio of " ++ pyStr pe ++
        " suggests the stock may be " ++ valuation_text ++ "."]
    else parts
  let parts :=
    if analysis.risk_factors.isEmpty then parts
    else parts ++ ["Risk Factors: " ++ String.intercalate ", " analysis.risk_factors]
  String.intercalate "\n\n" parts

/-- `SummaryService._add_stock_insights` (`summary_service.py`, lines 219–248):
appends the overbought/oversold and significant-move insights. -/
def add_stock_insights (summary : Summary) (stock : Stock) (analysis : Analysis) : Summary :=
  let s1 :=
    if truthyQ analysis.rsi then
      let rsi := analysis.rsi.getD 0
      if rsi > 80 then
        { summary with insights := summary.insights ++
            [⟨InsightLevel.warning, "Overbought Condition",
              "RSI of " ++ pyStr rsi ++
                " indicates overbought conditions. Consider taking profits.",
              [stock.symbol], some (8 / 10)⟩] }
      else if rsi < 20 then
        { summary with insights := summary.insights ++
            [⟨InsightLevel.info, "Oversold Condition",
              "RSI of " ++ pyStr rsi ++
                " indicates oversold conditions. Potential buying opportunity.",
              [stock.symbol], some (8 / 10)⟩] }
      else summary
    else summary
  if truthyQ stock.price_change_percent && decide (|pcpVal stock| > 10) then
    let level :=
      if |pcpVal stock| > 20 then InsightLevel.critical else InsightLevel.warning
    { s1 with insights := s1.insights ++
        [⟨level, "Significant Price Movement",
          "Stock moved " ++ fmt2Plus (pcpVal stock) ++
            "% today - investigate underlying reasons.",
          [stock.symbol], some (9 / 10)⟩] }
  else s1

/-- `SummaryService._generate_stock_recommendations`
(`summary_service.py`, lines 250–277). -/
def generate_stock_recommendations (stock : Stock) (analysis : Analysis) : List String :=
  let recommendations : List String := []
  let recommendations :=
    if truthyQ analysis.rsi then
      if decide (analysis.rsi.getD 0 > 80) && (analysis.trend_direction = some TrendDirection.up) then
        recommendations ++ ["Consider taking profits - stock may be overbought"]
      else if decide (analysis.rsi.getD 0 < 30) &&
          (analysis.trend_direction = some TrendDirection.down) then
        recommendations ++ ["Potential buying opportunity - stock may be oversold"]
      else recommendations
    else recommendations
  let recommendations :=
    if truthyZ analysis.valuation_score && decide (analysis.valuation_score.getD 0 ≥ 8) then
      recommendations ++ ["Stock appears undervalued based on fundamental metrics"]
    else if truthyZ analysis.valuation_score && decide (analysis.valuation_score.getD 0 ≤ 3) then
      recommendations ++ ["Stock may be overvalued - exercise caution"]
    else recommendations
  let recommendations :=
    if analysis.risk_level = some RiskLevel.high then
      recommendations ++ ["High risk detected - use appropriate position sizing"]
    else recommendations
  let recommendations :=
    if truthyZ analysis.growth_potential && decide (analysis.growth_potential.getD 0 ≥ 8) then
      recommendations ++ ["Strong growth potential identified - consider for growth portfolio"]
    else recommendations
  recommendations

/-- `SummaryService.generate_stock_analysis_summary`
(`summary_service.py`, lines 80–137).  Its first statement formats
`analysis.daily_return` with `:.2f`; when `daily_return` is `None` that format
raises `TypeError` before anything else runs, so the whole operation is
`Except PyError Summary`. -/
def generate_stock_analysis_summary (stock : Stock) (analysis : Analysis) :
    Except PyError Summary :=
  match analysis.daily_return with
  | none => Except.error PyError.typeError
  | some dr =>
    let change_text := if dr > 0 then "+" ++ fmt2 dr ++ "%" else fmt2 dr ++ "%"
    let trend_text :=
      match analysis.trend_direction with
      | some t => t.value
      | none => "sideways"
    let executive_summary :=
      stock.name ++ " (" ++ stock.symbol ++ ") closed at ¥" ++
        pyStrOpt stock.current_price ++ " (" ++ change_text ++ ")." ++
        "\n        Current trend: " ++ trend_text ++ ". Risk level: " ++
        (match analysis.risk_level with
         | some r => r.value
         | none => "medium") ++ "."
    let detailed_analysis := create_detailed_stock_analysis stock analysis
    let key_metrics : List (String × String) :=
      [("Current Price", "¥" ++ pyStrOpt stock.current_price),
       ("Daily Change", if dr ≠ 0 then fmt2 dr ++ "%" else "N/A"),
       ("P/E Ratio", if truthyQ stock.pe_ratio then pyStr (stock.pe_ratio.getD 0) else "N/A"),
       ("Market Cap",
         if truthyZ stock.market_cap then "¥" ++ pyFmtComma (stock.market_cap.getD 0)
         else "N/A"),
       ("Risk Level",
         match analysis.risk_level with
         | some r => r.value
         | none => "N/A"),
       ("RSI", if truthyQ analysis.rsi then pyStr (analysis.rsi.getD 0) else "N/A")]
    let base : Summary :=
      { summary_type := SummaryType.stock_analysis
        executive_summary := executive_summary
        detailed_analysis := detailed_analysis
        key_metrics := key_metrics
        stocks_analyzed := [stock.symbol]
        analysis_period := "1 day"
        confidence_score := 7 / 10 }
    let withInsights := add_stock_insights base stock analysis
    Except.ok { withInsights with
                recommendations := generate_stock_recommendations stock analysis }

/-- `SummaryService._create_detailed_market_analysis`
(`summary_service.py`, lines 119–137).  The average-P/E line divides by
`len([s for s in stocks if s.pe_ratio])`; when no stock has a truthy P/E this
raises `ZeroDivisionError`. -/
def create_detailed_market_analysis (stocks : List Stock) (analyses : List Analysis) :
    Except PyError String :=
  let total_volume := (stocks.map (fun s => s.volume.getD 0)).sum
  let peStocks := stocks.filter (fun s => truthyQ s.pe_ratio)
  if peStocks.length = 0 then Except.error PyError.zeroDivisionError
  else
    let avg_pe := (peStocks.map (fun s => s.pe_ratio.getD 0)).sum / (peStocks.length : ℚ)
    let analysis_parts : List String :=
      ["Market Activity: Total volume of " ++ pyFmtComma total_volume ++ " shares traded.",
       "Average P/E ratio across analyzed stocks: " ++ fmt2 avg_pe]
    let high_performers :=
      stocks.filter (fun s => truthyQ s.price_change_percent && decide (pcpVal s > 5))
    let analysis_parts :=
      if high_performers.isEmpty then analysis_parts
      else analysis_parts ++
        ["Strong performers: " ++ String.intercalate ", " (high_performers.map Stock.name)]
    let high_risk_count :=
      (analyses.filter (fun a => a.risk_level = some RiskLevel.high)).length
    let analysis_parts :=
      if high_risk_count > 0 then
        analysis_parts ++
          ["Risk Alert: " ++ toString high_risk_count ++ " stocks identified as high risk."]
      else analysis_parts
    Except.ok (String.intercalate "\n\n" analysis_parts)

/-- `SummaryService._add_market_insights` (`summary_service.py`, lines 162–200). -/
def add_market_insights (summary : Summary) (stocks : List Stock) (analyses : List Analysis) :
    Summary :=
  let positive_count :=
    (stocks.filter (fun s => truthyQ s.price_change_percent && decide (pcpVal s > 0))).length
  let total_count := stocks.length
  let s1 :=
    if (positive_count : ℚ) > (total_count : ℚ) * (7 / 10) then
      { summary with insights := summary.insights ++
          [⟨InsightLevel.info, "Strong Market Performance",
            "Over 70% of analyzed stocks showed positive performance today.",
            ((stocks.filter
                (fun s => truthyQ s.price_change_percent && decide (pcpVal s > 0))).map
              Stock.symbol),
            none⟩] }
    else if (positive_count : ℚ) < (total_count : ℚ) * (3 / 10) then
      { summary with insights := summary.insights ++
          [⟨InsightLevel.warning, "Market Weakness",
            "Less than 30% of analyzed stocks showed positive performance today.",
            ((stocks.filter
                (fun s => truthyQ s.price_change_percent && decide (pcpVal s < 0))).map
              Stock.symbol),
            none⟩] }
    else summary
  let high_vol_stocks :=
    (analyses.filter
        (fun a => truthyQ a.volatility_sq && decide (a.volatility_sq.getD 0 > 64))).map
      Analysis.stock_symbol
  if high_vol_stocks.isEmpty then s1
  else
    { s1 with insights := s1.insights ++
        [⟨InsightLevel.warning, "High Volatility Alert",
          "Several stocks showing elevated volatility: " ++
            String.intercalate ", " high_vol_stocks,
          high_vol_stocks, some (9 / 10)⟩] }

/-- `SummaryService._generate_market_recommendations`
(`summary_service.py`, lines 279–301). -/
def generate_market_recommendations (stocks : List Stock) (analyses : List Analysis) :
    List String :=
  let positive_count :=
    (stocks.filter (fun s => truthyQ s.price_change_percent && decide (pcpVal s > 0))).length
  let total_count := stocks.length
  let recommendations : List String := []
  let recommendations :=
    if (positive_count : ℚ) > (total_count : ℚ) * (6 / 10) then
      recommendations ++
        ["Market showing positive momentum - consider increasing equity exposure"]
    else if (positive_count : ℚ) < (total_count : ℚ) * (4 / 10) then
      recommendations ++ ["Market weakness detected - consider defensive positioning"]
    else recommendations
  let recommendations :=
    if (analyses.filter
          (fun a => truthyQ a.volatility_sq && decide (a.volatility_sq.getD 0 > 100))).isEmpty then
      recommendations
    else recommendations ++ ["Several stocks showing high volatility - use smaller position sizes"]
  let high_risk_count :=
    (analyses.filter (fun a => a.risk_level = some RiskLevel.high)).length
  let recommendations :=
    if (high_risk_count : ℚ) > (total_count : ℚ) * (3 / 10) then
      recommendations ++ ["Elevated risk levels detected - review portfolio risk management"]
    else recommendations
  recommendations

/-- `SummaryService.generate_daily_overview` (`summary_service.py`,
lines 18–78), in source order: counts, the two sorts, the executive summary
(whose `top_gainers[0]` raises `IndexError` when no stock has a truthy
percentage change — in particular on an empty quote list), the detailed
analysis (which can raise `ZeroDivisionError`), the key metrics (whose average
change would divide by `len(stocks)`), then the assembled summary with insights
and recommendations. -/
def generate_daily_overview (stocks : List Stock) (analyses : List Analysis) :
    Except PyError Summary :=
  let total_stocks := stocks.length
  let positive_stocks :=
    (stocks.filter (fun s => truthyQ s.price_change_percent && decide (pcpVal s > 0))).length
  let negative_stocks :=
    (stocks.filter (fun s => truthyQ s.price_change_percent && decide (pcpVal s < 0))).length
  let withChange := stocks.filter (fun s => truthyQ s.price_change_percent)
  let top_gainers := (sortDescBy pcpVal withChange).take 3
  let top_losers := (sortAscBy pcpVal withChange).take 3
  match top_gainers.head?, top_losers.head? with
  | some tg, some tl =>
    let executive_summary :=
      "Market Overview: " ++ toString positive_stocks ++ "/" ++ toString total_stocks ++
        " stocks gained today, while " ++ toString negative_stocks ++ " declined." ++
        "\n        Top gainer: " ++ tg.name ++ " (+" ++ fmt2 (pcpVal tg) ++ "%)" ++
        "\n        Top loser: " ++ tl.name ++ " (" ++ fmt2 (pcpVal tl) ++ "%)"
    (match create_detailed_market_analysis stocks analyses with
     | Except.error e => Except.error e
     | Except.ok detailed_analysis =>
       if total_stocks = 0 then Except.error PyError.zeroDivisionError
       else
         let key_metrics : List (String × String) :=
           [("Total Stocks Analyzed", toString total_stocks),
            ("Stocks Up", toString positive_stocks),
            ("Stocks Down", toString negative_stocks),
            ("Average Change",
              fmt2 ((stocks.map (fun s => s.price_change_percent.getD 0)).sum /
                (total_stocks : ℚ)) ++ "%"),
            ("Market Sentiment",
              if positive_stocks > negative_stocks then "Positive" else "Negative")]
         let base : Summary :=
           { summary_type := SummaryType.daily_overview
             executive_summary := executive_summary
             detailed_analysis := detailed_analysis
             key_metrics := key_metrics
             stocks_analyzed := stocks.map Stock.symbol
             analysis_period := "1 day"
             confidence_score := 8 / 10 }
         let withInsights := add_market_insights base stocks analyses
         Except.ok { withInsights with
                     recommendations := generate_market_recommendations stocks analyses })
  | _, _ => Except.error PyError.indexError

/-! Concrete inputs used by counterexamples and witnesses. -/

/-- A quote whose only populated optional field is a P/E ratio of 40. -/
def stockPE40 : Stock := { symbol := "X40", name := "X40", pe_ratio := some 40 }

/-- A quote that gained 15% (current 115, previous close 100). -/
def stockUp15 : Stock :=
  { symbol := "U15", name := "U15", current_price := some 115, previous_close := some 100 }

/-- A quote with every optional field absent. -/
def stockAllMissing : Stock := { symbol := "M", name := "M" }

/-! Claim C1 -/

/-- The valuation ladder exactly as claim C1 words it: the P/E tests are
checked in the claim's order (`< 10`, `10 ≤ · < 15`, `> 35`, else `> 25`) and
the dividend tests in the claim's order (`> 5`, else `> 3`), first match wins,
then clamp to [1,10]. -/
def valuationScoreClaimC1 (stock : Stock) : ℤ :=
  let score : ℤ := 5
  let score :=
    match stock.pe_ratio with
    | some pe =>
        if pe ≠ 0 then
          if pe < 10 then score + 2
          else if 10 ≤ pe ∧ pe < 15 then score + 1
          else if pe > 35 then score - 2
          else if pe > 25 then score - 1
          else score
        else score
    | none => score
  let score :=
    match stock.dividend_yield with
    | some dy =>
        if dy ≠ 0 then
          if dy > 5 then score + 2
          else if dy > 3 then score + 1
          else score
        else score
    | none => score
  max 1 (min 10 score)

/-- The P/E adjustment the code actually applies: the `> 35 → −2` branch of the
source is shadowed by the earlier `> 25` test, so every P/E above 25 adjusts
by −1. -/
def peAdjC1 (pe : ℚ) : ℤ :=
  if pe < 10 then 2 else if pe < 15 then 1 else if pe > 25 then -1 else 0

/-- The dividend adjustment the code actually applies: the `> 5 → +2` branch is
shadowed by the earlier `> 3` test. -/
def dyAdjC1 (dy : ℚ) : ℤ := if dy > 3 then 1 else 0

/-- The amended C1 valuation score: start at 5, add the (shadow-free) P/E and
dividend adjustments for truthy fields, clamp to [1,10]. -/
def valuationScoreAmendedC1 (stock : Stock) : ℤ :=
  max 1 (min 10 (5 +
    (match stock.pe_ratio with
     | some pe => if pe ≠ 0 then peAdjC1 pe else 0
     | none => 0) +
    (match stock.dividend_yield with
     | some dy => if dy ≠ 0 then dyAdjC1 dy else 0
     | none => 0)))

/-- C1 counterexample: at P/E = 40 the claim's ladder (its `P/E > 35 → −2`
branch fires first) yields 3, but the code's ladder tests `> 25` first and
yields 4 — the `−2` branch of the source is unreachable. -/
theorem C1_counterexample :
    calculate_valuation_score stockPE40 = 4 ∧
    valuationScoreClaimC1 stockPE40 = 3 ∧
    calculate_valuation_score stockPE40 ≠ valuationScoreClaimC1 stockPE40 := by
  refine ⟨?_, ?_, ?_⟩ <;>
    norm_num [calculate_valuation_score, valuationScoreClaimC1, stockPE40]

/-- C1 amended: for every quote the valuation score starts at 5; P/E < 10 adds
2, 10 ≤ P/E < 15 adds 1, and P/E > 25 subtracts 1 (the source's `> 35 → −2`
branch is unreachable, shadowed by the `> 25` test, so a P/E in (15,25] leaves
the score unchanged and every P/E above 25 subtracts exactly 1); dividend
yield > 3 adds 1 (the `> 5 → +2` branch is likewise unreachable); a missing or
zero P/E or yield contributes nothing; the result is clamped to [1,10]. -/
theorem C1_valuation_amended (s : Stock) :
    calculate_valuation_score s = valuationScoreAmendedC1 s := by
  cases hpe : s.pe_ratio <;> cases hdy : s.dividend_yield <;>
    simp only [calculate_valuation_score, valuationScoreAmendedC1, peAdjC1, dyAdjC1,
      hpe, hdy] <;>
    first
      | decide
      | (split_ifs <;> first | decide | (exfalso; linarith))

/-- C1 witness: the amended ladder evaluated at the concrete P/E-40 quote. -/
theorem C1_witness :
    calculate_valuation_score stockPE40 = valuationScoreAmendedC1 stockPE40 :=
  C1_valuation_amended stockPE40

/-! Claim C2 -/

/-- The growth ladder exactly as claim C2 words it: change `> 10 → +2`,
else `> 5 → +1`, `< −10 → −2`, else `< −5 → −1`; then the market-cap
adjustments; clamp to [1,10]. -/
def growthScoreClaimC2 (stock : Stock) : ℤ :=
  let score : ℤ := 5
  let score :=
    match stock.price_change_percent with
    | some pcp =>
        if pcp ≠ 0 then
          if pcp > 10 then score + 2
          else if pcp > 5 then score + 1
          else if pcp < -10 then score - 2
          else if pcp < -5 then score - 1
          else score
        else score
    | none => score
  let score :=
    match stock.market_cap with
    | some mc =>
        if mc ≠ 0 then
          if mc < 10000000000 then score + 1
          else if mc > 1000000000000 then score - 1
          else score
        else score
    | none => score
  max 1 (min 10 score)

/-- The percentage-change adjustment the code actually applies: the
`> 10 → +2` and `< −10 → −2` branches are shadowed by the earlier `> 5` and
`< −5` tests. -/
def pcpAdjC2 (pcp : ℚ) : ℤ :=
  if pcp > 5 then 1 else if pcp < -5 then -1 else 0

/-- The market-cap adjustment (both branches are reachable). -/
def mcAdjC2 (mc : ℤ) : ℤ :=
  if mc < 10000000000 then 1 else if mc > 1000000000000 then -1 else 0

/-- The amended C2 growth score: start at 5, add the (shadow-free) change and
market-cap adjustments for truthy fields, clamp to [1,10]. -/
def growthScoreAmendedC2 (stock : Stock) : ℤ :=
  max 1 (min 10 (5 +
    (match stock.price_change_percent with
     | some pcp => if pcp ≠ 0 then pcpAdjC2 pcp else 0
     | none => 0) +
    (match stock.market_cap with
     | some mc => if mc ≠ 0 then mcAdjC2 mc else 0
     | none => 0)))

/-- C2 counterexample: at a +15% change the claim's ladder (its `> 10 → +2`
branch fires first) yields 7, but the code tests `> 5` first and yields 6 —
the `+2` branch of the source is unreachable (and symmetrically for `−2`). -/
theorem C2_counterexample :
    calculate_growth_potential stockUp15 = 6 ∧
    growthScoreClaimC2 stockUp15 = 7 ∧
    calculate_growth_potential stockUp15 ≠ growthScoreClaimC2 stockUp15 := by
  have hpcp : stockUp15.price_change_percent = some 15 := by
    norm_num [Stock.price_change_percent, stockUp15]
  have hmc : stockUp15.market_cap = none := rfl
  refine ⟨?_, ?_, ?_⟩ <;>
    norm_num [calculate_growth_potential, growthScoreClaimC2, hpcp, hmc]

/-- C2 amended: for every quote the growth score starts at 5; a percentage
change > 5 adds 1 (the `> 10 → +2` branch of the source is unreachable,
shadowed by the `> 5` test) and a change < −5 subtracts 1 (the `< −10 → −2`
branch is likewise unreachable); market cap < 10 billion adds 1 and market
cap > 1 trillion subtracts 1; a missing or zero change or market cap
contributes nothing; the result is clamped to [1,10]. -/
theorem C2_growth_amended (s : Stock) :
    calculate_growth_potential s = growthScoreAmendedC2 s := by
  cases hpcp : s.price_change_percent <;> cases hmc : s.market_cap <;>
    simp only [calculate_growth_potential, growthScoreAmendedC2, pcpAdjC2, mcAdjC2,
      hpcp, hmc] <;>
    first
      | decide
      | (split_ifs <;> first | decide | (exfalso; omega) | (exfalso; linarith))

/-- C2 witness: the amended ladder evaluated at the concrete +15% quote. -/
theorem C2_witness :
    calculate_growth_potential stockUp15 = growthScoreAmendedC2 stockUp15 :=
  C2_growth_amended stockUp15

/-! Claim C3 -/

/-- The RSI computation exactly as claim C3 words it for every non-empty
history: gains/losses from the consecutive pairs of the first
`min (length, period+1)` points, 50 when either series is empty, 100 when the
mean loss is 0, otherwise the rounded RS formula — with no length guard. -/
def rsiClaimC3 (historical_data : List ℚ) (period : ℕ := 14) : ℚ :=
  let cs := changesOf (historical_data.take (min historical_data.length (period + 1)))
  let gains := cs.map (fun c => if 0 < c then c else 0)
  let losses := cs.map (fun c => if 0 < c then 0 else |c|)
  if gains = [] ∨ losses = [] then 50
  else
    let avg_gain := listMean gains
    let avg_loss := listMean losses
    if avg_loss = 0 then 100
    else round2 (100 - 100 / (1 + avg_gain / avg_loss))

/-- C3 counterexample: the history `[1, 2]` is non-empty, and the claim's
computation on it gives gains `[1]`, losses `[0]`, mean loss 0, hence RSI 100;
but the code's length guard returns the neutral 50 for every history shorter
than `period + 1 = 15` points without looking at any pair. -/
theorem C3_counterexample :
    calculate_simple_rsi [1, 2] = 50 ∧ rsiClaimC3 [1, 2] = 100 ∧
    calculate_simple_rsi [1, 2] ≠ rsiClaimC3 [1, 2] := by
  refine ⟨?_, ?_, ?_⟩ <;>
    norm_num [calculate_simple_rsi, rsiClaimC3, changesOf, listMean]

/-- C3 amended: the pair-based RSI computation applies only to histories with
at least `period + 1 = 15` points (and then uses exactly the first 15 points,
as the claim describes); every shorter history — including every non-empty one
— yields the neutral 50 from the length guard; and with no history at all
`analyze` leaves the RSI undefined rather than 50. -/
theorem C3_rsi_amended (h : List ℚ) (s : Stock) :
    (15 ≤ h.length → calculate_simple_rsi h = rsiClaimC3 h) ∧
    (h.length < 15 → calculate_simple_rsi h = 50) ∧
    (analyze_stock s []).rsi = none := by
  refine ⟨fun hlen => ?_, fun hlen => ?_, rfl⟩
  · simp only [calculate_simple_rsi, rsiClaimC3, if_neg (by omega : ¬h.length < 14 + 1)]
  · simp only [calculate_simple_rsi, if_pos (by omega : h.length < 14 + 1)]

/-- A 15-point history (the minimum the RSI guard lets through). -/
def hist15 : List ℚ :=
  [100, 101, 102, 103, 104, 105, 106, 107, 108, 109, 110, 111, 112, 113, 114]

/-- C3 witness: the amended theorem applied to the 15-point history `hist15`
and to a concrete stock with no history. -/
theorem C3_witness :
    calculate_simple_rsi hist15 = rsiClaimC3 hist15 ∧
    (analyze_stock stockAllMissing []).rsi = none :=
  ⟨(C3_rsi_amended hist15 stockAllMissing).1 (by decide),
   (C3_rsi_amended hist15 stockAllMissing).2.2⟩

/-! Claim C4 -/

/-- C4: on an empty quote list `generate_daily_overview` raises an unguarded
`IndexError` at the `top_gainers[0]` access while building the executive
summary (and the average-change key metric would divide by zero); it does not
return the defined `EmptyDataset` failure the specification prescribes. -/
theorem C4_empty_overview_raises_IndexError :
    generate_daily_overview [] [] = Except.error PyError.indexError ∧
    PyError.indexError ≠ PyError.emptyDataset :=
  ⟨rfl, by decide⟩

/-! Shared structural lemmas about the analysis pipeline. -/

/-- The trend block never sets a valuation score. -/
theorem trendStage_valuation (s : Stock) : (trendStage s).valuation_score = none := by
  unfold trendStage
  cases s.price_change_percent
  · rfl
  · dsimp only
    split_ifs <;> rfl

/-- The trend block never sets a growth score. -/
theorem trendStage_growth (s : Stock) : (trendStage s).growth_potential = none := by
  unfold trendStage
  cases s.price_change_percent
  · rfl
  · dsimp only
    split_ifs <;> rfl

/-- The trend block never sets an RSI. -/
theorem trendStage_rsi (s : Stock) : (trendStage s).rsi = none := by
  unfold trendStage
  cases s.price_change_percent
  · rfl
  · dsimp only
    split_ifs <;> rfl

/-- The trend block never sets moving averages. -/
theorem trendStage_ma (s : Stock) :
    (trendStage s).moving_average_5d = none ∧ (trendStage s).moving_average_20d = none := by
  unfold trendStage
  cases s.price_change_percent
  · exact ⟨rfl, rfl⟩
  · dsimp only
    constructor <;> split_ifs <;> rfl

/-- The scoring block always stores the clamped valuation score. -/
theorem scoreStage_valuation (s : Stock) (h : List ℚ) (a : Analysis) :
    (scoreStage s h a).valuation_score = some (calculate_valuation_score s) := rfl

/-- The scoring block always stores the clamped growth score. -/
theorem scoreStage_growth (s : Stock) (h : List ℚ) (a : Analysis) :
    (scoreStage s h a).growth_potential = some (calculate_growth_potential s) := rfl

/-- The scoring block leaves the moving averages of its input untouched. -/
theorem scoreStage_ma (s : Stock) (h : List ℚ) (a : Analysis) :
    (scoreStage s h a).moving_average_5d = a.moving_average_5d ∧
    (scoreStage s h a).moving_average_20d = a.moving_average_20d := ⟨rfl, rfl⟩

/-- Integer clamping to `[1,10]` really lands in `[1,10]`. -/
theorem clamp_bounds (x : ℤ) : 1 ≤ max 1 (min 10 x) ∧ max 1 (min 10 x) ≤ 10 :=
  ⟨le_max_left 1 _, max_le (by norm_num) (min_le_left _ _)⟩

/-- The valuation score of any quote lies in `[1,10]`. -/
theorem valuation_in_range (s : Stock) :
    1 ≤ calculate_valuation_score s ∧ calculate_valuation_score s ≤ 10 := by
  simp only [calculate_valuation_score]
  exact clamp_bounds _

/-- The growth score of any quote lies in `[1,10]`. -/
theorem growth_in_range (s : Stock) :
    1 ≤ calculate_growth_potential s ∧ calculate_growth_potential s ≤ 10 := by
  simp only [calculate_growth_potential]
  exact clamp_bounds _

/-! Claim C5 -/

/-- C5 counterexample: on the two-point history `[1, 2]` the lone return makes
`stdev` raise `StatisticsError`; the caught failure leaves the valuation score
`None` — not the neutral default 5 the claim states. -/
theorem C5_counterexample :
    (analyze_stock stockAllMissing [1, 2]).valuation_score = none ∧
    (none : Option ℤ) ≠ some 5 :=
  ⟨rfl, by decide⟩

/-- C5 amended: when the per-item analysis hits its one internal failure point
(the `stdev` raise on a return series of length 1), the failure is caught and
`analyze` returns the analysis exactly in the partial state reached before the
failure: the trend block's fields survive, while the RSI and both scores are
left undefined (`None`, not the neutral 5); and a batch always yields one
analysis per input stock, so no failure aborts it. -/
theorem C5_partial_on_failure (s : Stock) (h : List ℚ)
    (hl : 1 < h.length) (hr : (returnsOf h).length = 1) :
    analyze_stock s h = trendStage s ∧
    (analyze_stock s h).valuation_score = none ∧
    (analyze_stock s h).growth_potential = none ∧
    (analyze_stock s h).rsi = none ∧
    ∀ stocks : List Stock, (analyze_multiple_stocks stocks).length = stocks.length := by
  have key : analyze_stock s h = trendStage s := by
    have hv : volStage (trendStage s) h = Except.error () := by
      simp [volStage, hl, hr]
    simp only [analyze_stock, hv]
  refine ⟨key, ?_, ?_, ?_, ?_⟩
  · rw [key]; exact trendStage_valuation s
  · rw [key]; exact trendStage_growth s
  · rw [key]; exact trendStage_rsi s
  · intro stocks; simp [analyze_multiple_stocks]

/-- C5 witness: the amended theorem applied to the concrete failing history
`[1, 2]`. -/
theorem C5_witness :
    analyze_stock stockAllMissing [1, 2] = trendStage stockAllMissing ∧
    (analyze_stock stockAllMissing [1, 2]).rsi = none :=
  ⟨(C5_partial_on_failure stockAllMissing [1, 2] (by decide) (by decide)).1,
   (C5_partial_on_failure stockAllMissing [1, 2] (by decide) (by decide)).2.2.2.1⟩

/-! Claim C6 -/

/-- A quote with a positive previous close but no current price. -/
def stockNoCur : Stock := { symbol := "NC", name := "NC", previous_close := some 100 }

/-- C6 counterexample: a quote whose previous close is present and positive but
whose current price is absent has an undefined percentage change — the claim's
"undefined exactly when previous close is absent or zero" misses the
current-price requirement. -/
theorem C6_counterexample :
    stockNoCur.price_change_percent = none ∧
    stockNoCur.previous_close = some 100 ∧ (0 : ℚ) < 100 :=
  ⟨rfl, rfl, by norm_num⟩

/-- C6 amended: the percentage change equals
`(current − previous) / previous * 100` whenever the current price is present
and nonzero and the previous close is present and positive, and it is defined
exactly under those conditions (undefined when the previous close is absent or
not positive, but also when the current price is absent or zero). -/
theorem C6_pcp_amended (s : Stock) :
    (∀ c p, s.current_price = some c → c ≠ 0 → s.previous_close = some p → 0 < p →
      s.price_change_percent = some ((c - p) / p * 100)) ∧
    (s.price_change_percent ≠ none ↔
      ((∃ c, s.current_price = some c ∧ c ≠ 0) ∧ ∃ p, s.previous_close = some p ∧ 0 < p)) := by
  constructor
  · rintro c p hc hc0 hp hp0
    simp only [Stock.price_change_percent, hc, hp]
    rw [if_pos ⟨hc0, hp0.ne', hp0⟩]
  · cases hc : s.current_price with
    | none => simp [Stock.price_change_percent, hc]
    | some c =>
      cases hp : s.previous_close with
      | none => simp [Stock.price_change_percent, hc, hp]
      | some p =>
        simp only [Stock.price_change_percent, hc, hp]
        split_ifs with hcond
        · simp only [ne_eq, reduceCtorEq, not_false_eq_true, true_iff]
          exact ⟨⟨c, rfl, hcond.1⟩, ⟨p, rfl, hcond.2.2⟩⟩
        · simp only [ne_eq, not_true_eq_false, false_iff, not_and]
          rintro ⟨c', hc', hc0'⟩ ⟨p', hp', hp0'⟩
          injection hc' with h1
          injection hp' with h2
          subst h1
          subst h2
          exact hcond ⟨hc0', hp0'.ne', hp0'⟩

/-- C6 witness: the amended theorem applied to the quote with current price 115
and previous close 100. -/
theorem C6_witness :
    stockUp15.price_change_percent = some (((115 : ℚ) - 100) / 100 * 100) :=
  (C6_pcp_amended stockUp15).1 115 100 rfl (by norm_num) rfl (by norm_num)

/-! Claim C7 -/

/-- C7: the valuation and growth scores `analyze` produces are always integers
in `[1,10]` (whenever a score is produced at all), and a quote with every
optional field missing scores the neutral 5 on both, with no adjustments. -/
theorem C7_scores_in_range (s : Stock) (h : List ℚ) :
    (∀ v, (analyze_stock s h).valuation_score = some v → 1 ≤ v ∧ v ≤ 10) ∧
    (∀ g, (analyze_stock s h).growth_potential = some g → 1 ≤ g ∧ g ≤ 10) ∧
    calculate_valuation_score stockAllMissing = 5 ∧
    calculate_growth_potential stockAllMissing = 5 ∧
    (analyze_stock stockAllMissing []).valuation_score = some 5 ∧
    (analyze_stock stockAllMissing []).growth_potential = some 5 := by
  refine ⟨?_, ?_, by decide, by decide, by decide, by decide⟩
  · intro v hv
    cases hvs : volStage (trendStage s) h with
    | error e =>
      simp only [analyze_stock, hvs] at hv
      rw [trendStage_valuation s] at hv
      cases hv
    | ok a2 =>
      simp only [analyze_stock, hvs] at hv
      rw [scoreStage_valuation s h a2] at hv
      obtain rfl : calculate_valuation_score s = v := by injection hv
      exact valuation_in_range s
  · intro g hg
    cases hvs : volStage (trendStage s) h with
    | error e =>
      simp only [analyze_stock, hvs] at hg
      rw [trendStage_growth s] at hg
      cases hg
    | ok a2 =>
      simp only [analyze_stock, hvs] at hg
      rw [scoreStage_growth s h a2] at hg
      obtain rfl : calculate_growth_potential s = g := by injection hg
      exact growth_in_range s

/-- C7 witness: the bound instantiated at the all-missing quote, whose analyze
result carries the neutral valuation score 5. -/
theorem C7_witness : 1 ≤ (5 : ℤ) ∧ (5 : ℤ) ≤ 10 :=
  (C7_scores_in_range stockAllMissing []).1 5 (by decide)

/-! Claim C8 -/

/-- Appending stock insights never touches the key-metrics table. -/
theorem add_stock_insights_key_metrics (su : Summary) (st : Stock) (a : Analysis) :
    (add_stock_insights su st a).key_metrics = su.key_metrics := by
  unfold add_stock_insights
  dsimp only
  split_ifs <;> rfl

/-- Appending stock insights never touches the executive summary. -/
theorem add_stock_insights_exec (su : Summary) (st : Stock) (a : Analysis) :
    (add_stock_insights su st a).executive_summary = su.executive_summary := by
  unfold add_stock_insights
  dsimp only
  split_ifs <;> rfl

/-- The code's truthiness-guarded rendering of an optional rational agrees with
the match form used in the claim statements. -/
theorem renderQ_eq (o : Option ℚ) :
    (if truthyQ o then pyStr (o.getD 0) else "N/A") =
      (match o with
       | some q => if q ≠ 0 then pyStr q else "N/A"
       | none => "N/A") := by
  cases o with
  | none => rfl
  | some q =>
    by_cases hq : q = 0 <;> simp [truthyQ, hq]

/-- The code's truthiness-guarded rendering of an optional integer (with a `¥`
sign) agrees with the match form used in the claim statements. -/
theorem renderZ_eq (o : Option ℤ) :
    (if truthyZ o then "¥" ++ pyFmtComma (o.getD 0) else "N/A") =
      (match o with
       | some n => if n ≠ 0 then "¥" ++ pyFmtComma n else "N/A"
       | none => "N/A") := by
  cases o with
  | none => rfl
  | some n =>
    by_cases hn : n = 0 <;> simp [truthyZ, hn]

/-- The analysis `generate_stock_analysis_summary` crashes on: its daily return
is undefined. -/
def analysisNoReturn : Analysis := { stock_symbol := "U15" }

/-- C8 counterexample: with an undefined daily change the very first statement
of `generate_stock_analysis_summary` formats `None` with `:.2f` and raises
`TypeError` — no report is produced, contradicting the claim's "produces a
report even when the daily change is undefined". -/
theorem C8_counterexample :
    generate_stock_analysis_summary stockUp15 analysisNoReturn =
      Except.error PyError.typeError ∧
    Except.error PyError.typeError ≠
      (Except.ok { summary_type := SummaryType.stock_analysis, executive_summary := "",
                   detailed_analysis := "", key_metrics := [], stocks_analyzed := [],
                   analysis_period := "1 day", confidence_score := 7 / 10 } :
        Except PyError Summary) :=
  ⟨rfl, by simp⟩

/-- C8 amended: when the daily return is defined the operation produces a
report whose key-metrics table includes price, change, P/E, market cap, risk
level and RSI — each of the last five rendered `"N/A"` when undefined (or zero,
by Python truthiness), while an undefined price is rendered `"¥None"`, not
`"N/A"` — and whose executive summary states price, signed change, trend label
and risk label (defaulting to `"medium"` when the risk is undefined); when the
daily return is undefined the operation instead fails with a `TypeError` while
formatting the change, producing no report. -/
theorem C8_stock_report_amended (stock : Stock) (analysis : Analysis) :
    (analysis.daily_return = none →
      generate_stock_analysis_summary stock analysis = Except.error PyError.typeError) ∧
    (∀ dr, analysis.daily_return = some dr → ∃ rep,
      generate_stock_analysis_summary stock analysis = Except.ok rep ∧
      rep.key_metrics =
        [("Current Price", "¥" ++ pyStrOpt stock.current_price),
         ("Daily Change", if dr ≠ 0 then fmt2 dr ++ "%" else "N/A"),
         ("P/E Ratio",
           match stock.pe_ratio with
           | some pe => if pe ≠ 0 then pyStr pe else "N/A"
           | none => "N/A"),
         ("Market Cap",
           match stock.market_cap with
           | some mc => if mc ≠ 0 then "¥" ++ pyFmtComma mc else "N/A"
           | none => "N/A"),
         ("Risk Level",
           match analysis.risk_level with
           | some r => r.value
           | none => "N/A"),
         ("RSI",
           match analysis.rsi with
           | some r => if r ≠ 0 then pyStr r else "N/A"
           | none => "N/A")] ∧
      rep.executive_summary =
        stock.name ++ " (" ++ stock.symbol ++ ") closed at ¥" ++
          pyStrOpt stock.current_price ++ " (" ++
          (if dr > 0 then "+" ++ fmt2 dr ++ "%" else fmt2 dr ++ "%") ++ ")." ++
          "\n        Current trend: " ++
          (match analysis.trend_direction with
           | some t => t.value
           | none => "sideways") ++
          ". Risk level: " ++
          (match analysis.risk_level with
           | some r => r.value
           | none => "medium") ++ ".") := by
  constructor
  · intro hdr
    simp only [generate_stock_analysis_summary, hdr]
  · intro dr hdr
    simp only [generate_stock_analysis_summary, hdr]
    refine ⟨_, rfl, ?_, ?_⟩
    · show (add_stock_insights _ stock analysis).key_metrics = _
      rw [add_stock_insights_key_metrics]
      rw [← renderQ_eq stock.pe_ratio, ← renderZ_eq stock.market_cap,
        ← renderQ_eq analysis.rsi]
    · show (add_stock_insights _ stock analysis).executive_summary = _
      rw [add_stock_insights_exec]

/-- An analysis with a defined daily return of +5%. -/
def analysisUp5 : Analysis := { stock_symbol := "U15", daily_return := some 5 }

/-- C8 witness: the amended theorem applied at a concrete quote and an analysis
whose daily return is +5%, producing a report. -/
theorem C8_witness :
    ∃ rep, generate_stock_analysis_summary stockUp15 analysisUp5 = Except.ok rep := by
  obtain ⟨rep, hrep, -, -⟩ := (C8_stock_report_amended stockUp15 analysisUp5).2 5 rfl
  exact ⟨rep, hrep⟩

/-! Claim C9 -/

/-- When the history has more than one point and the return series has at least
two entries, the volatility block succeeds and sets the moving averages exactly
when the history is long enough. -/
theorem volStage_ok_ex (a : Analysis) (h : List ℚ)
    (h1 : 1 < h.length) (hr : 2 ≤ (returnsOf h).length) :
    ∃ a2, volStage a h = Except.ok a2 ∧
      a2.moving_average_5d =
        (if h.length ≥ 5 then some (listMean (lastN 5 h)) else a.moving_average_5d) ∧
      a2.moving_average_20d =
        (if h.length ≥ 20 then some (listMean (lastN 20 h)) else a.moving_average_20d) := by
  simp only [volStage]
  rw [if_pos h1, if_neg (by omega : ¬(returnsOf h).length = 0),
    if_neg (by omega : ¬(returnsOf h).length = 1)]
  refine ⟨_, rfl, ?_, ?_⟩ <;> split_ifs <;> rfl

/-- C9 counterexample: the 5-point history `[0,0,0,0,100]` yields an empty
return series (every prior close is 0), so the moving-average assignments are
skipped and the 5-day moving average stays undefined — not the mean 20 of the
last five closes that the claim requires for every history with at least 5
points. -/
theorem C9_counterexample :
    (analyze_stock stockAllMissing [0, 0, 0, 0, 100]).moving_average_5d = none ∧
    listMean (lastN 5 [0, 0, 0, 0, 100]) = 20 ∧
    (none : Option ℚ) ≠ some 20 := by
  refine ⟨rfl, ?_, by simp⟩
  norm_num [listMean, lastN]

/-- C9 amended: the 5-day (resp. 20-day) moving average equals the arithmetic
mean of the last 5 (resp. 20) closes whenever the history has at least that
many points *and* the volatility return series has at least two entries (at
least two consecutive pairs with a positive prior close — otherwise the
assignments are skipped, or the `stdev` failure aborts the block, and the
average stays undefined); with fewer than 5 (resp. 20) points it is always
undefined. -/
theorem C9_moving_averages_amended (s : Stock) (h : List ℚ) :
    (5 ≤ h.length → 2 ≤ (returnsOf h).length →
      (analyze_stock s h).moving_average_5d = some (listMean (lastN 5 h))) ∧
    (20 ≤ h.length → 2 ≤ (returnsOf h).length →
      (analyze_stock s h).moving_average_20d = some (listMean (lastN 20 h))) ∧
    (h.length < 5 → (analyze_stock s h).moving_average_5d = none) ∧
    (h.length < 20 → (analyze_stock s h).moving_average_20d = none) := by
  refine ⟨?_, ?_, ?_, ?_⟩
  · intro h5 hr2
    obtain ⟨a2, hok, hma5, hma20⟩ := volStage_ok_ex (trendStage s) h (by omega) hr2
    simp only [analyze_stock, hok]
    rw [(scoreStage_ma s h a2).1, hma5, if_pos (by omega : h.length ≥ 5)]
  · intro h20 hr2
    obtain ⟨a2, hok, hma5, hma20⟩ := volStage_ok_ex (trendStage s) h (by omega) hr2
    simp only [analyze_stock, hok]
    rw [(scoreStage_ma s h a2).2, hma20, if_pos (by omega : h.length ≥ 20)]
  · intro h5
    by_cases h1 : 1 < h.length
    · rcases (by omega : (returnsOf h).length = 0 ∨ (returnsOf h).length = 1 ∨
          2 ≤ (returnsOf h).length) with h0 | hone | hr
      · have hv : volStage (trendStage s) h = Except.ok (trendStage s) := by
          simp only [volStage]
          rw [if_pos h1, if_pos h0]
        simp only [analyze_stock, hv]
        rw [(scoreStage_ma s h (trendStage s)).1]
        exact (trendStage_ma s).1
      · have hv : volStage (trendStage s) h = Except.error () := by
          simp only [volStage]
          rw [if_pos h1, if_neg (by omega), if_pos hone]
        simp only [analyze_stock, hv]
        exact (trendStage_ma s).1
      · obtain ⟨a2, hok, hma5, hma20⟩ := volStage_ok_ex (trendStage s) h h1 hr
        simp only [analyze_stock, hok]
        rw [(scoreStage_ma s h a2).1, hma5, if_neg (by omega : ¬h.length ≥ 5)]
        exact (trendStage_ma s).1
    · have hv : volStage (trendStage s) h = Except.ok (trendStage s) := by
        simp only [volStage]
        rw [if_neg h1]
      simp only [analyze_stock, hv]
      rw [(scoreStage_ma s h (trendStage s)).1]
      exact (trendStage_ma s).1
  · intro h20
    by_cases h1 : 1 < h.length
    · rcases (by omega : (returnsOf h).length = 0 ∨ (returnsOf h).length = 1 ∨
          2 ≤ (returnsOf h).length) with h0 | hone | hr
      · have hv : volStage (trendStage s) h = Except.ok (trendStage s) := by
          simp only [volStage]
          rw [if_pos h1, if_pos h0]
        simp only [analyze_stock, hv]
        rw [(scoreStage_ma s h (trendStage s)).2]
        exact (trendStage_ma s).2
      · have hv : volStage (trendStage s) h = Except.error () := by
          simp only [volStage]
          rw [if_pos h1, if_neg (by omega), if_pos hone]
        simp only [analyze_stock, hv]
        exact (trendStage_ma s).2
      · obtain ⟨a2, hok, hma5, hma20⟩ := volStage_ok_ex (trendStage s) h h1 hr
        simp only [analyze_stock, hok]
        rw [(scoreStage_ma s h a2).2, hma20, if_neg (by omega : ¬h.length ≥ 20)]
        exact (trendStage_ma s).2
    · have hv : volStage (trendStage s) h = Except.ok (trendStage s) := by
        simp only [volStage]
        rw [if_neg h1]
      simp only [analyze_stock, hv]
      rw [(scoreStage_ma s h (trendStage s)).2]
      exact (trendStage_ma s).2

/-- The specification's worked 5-point example history. -/
def specHist : List ℚ := [100, 102, 101, 105, 108]

/-- C9 witness: on the specification's example history the 5-day moving average
is 103.2, via the amended theorem. -/
theorem C9_witness :
    (analyze_stock stockAllMissing specHist).moving_average_5d = some (103.2 : ℚ) := by
  have hma := (C9_moving_averages_amended stockAllMissing specHist).1 (by decide) (by decide)
  rw [hma]
  norm_num [listMean, lastN, specHist]

/-! Claim C10 -/

/-- Stable descending insert grows the length by one. -/
theorem length_insertDescBy {α : Type} (key : α → ℚ) (x : α) (l : List α) :
    (insertDescBy key x l).length = l.length + 1 := by
  induction l with
  | nil => rfl
  | cons y ys ih =>
    unfold insertDescBy
    split_ifs <;> simp [ih]

/-- Stable ascending insert grows the length by one. -/
theorem length_insertAscBy {α : Type} (key : α → ℚ) (x : α) (l : List α) :
    (insertAscBy key x l).length = l.length + 1 := by
  induction l with
  | nil => rfl
  | cons y ys ih =>
    unfold insertAscBy
    split_ifs <;> simp [ih]

/-- The descending sort preserves the length. -/
theorem length_sortDescBy {α : Type} (key : α → ℚ) (l : List α) :
    (sortDescBy key l).length = l.length := by
  suffices key : ∀ acc : List α,
      (l.foldl (fun acc x => insertDescBy key x acc) acc).length = acc.length + l.length by
    simpa using key []
  induction l with
  | nil => simp
  | cons y ys ih =>
    intro acc
    simp only [List.foldl_cons, ih, length_insertDescBy, List.length_cons]
    omega

/-- The ascending sort preserves the length. -/
theorem length_sortAscBy {α : Type} (key : α → ℚ) (l : List α) :
    (sortAscBy key l).length = l.length := by
  suffices key : ∀ acc : List α,
      (l.foldl (fun acc x => insertAscBy key x acc) acc).length = acc.length + l.length by
    simpa using key []
  induction l with
  | nil => simp
  | cons y ys ih =>
    intro acc
    simp only [List.foldl_cons, ih, length_insertAscBy, List.length_cons]
    omega

/-- The descending sort of a list is empty exactly when the list is. -/
theorem sortDescBy_eq_nil_iff {α : Type} (key : α → ℚ) (l : List α) :
    sortDescBy key l = [] ↔ l = [] := by
  constructor
  · intro h0
    have hlen := length_sortDescBy key l
    rw [h0] at hlen
    exact List.length_eq_zero.mp hlen.symm
  · rintro rfl
    rfl

/-- The ascending sort of a list is empty exactly when the list is. -/
theorem sortAscBy_eq_nil_iff {α : Type} (key : α → ℚ) (l : List α) :
    sortAscBy key l = [] ↔ l = [] := by
  constructor
  · intro h0
    have hlen := length_sortAscBy key l
    rw [h0] at hlen
    exact List.length_eq_zero.mp hlen.symm
  · rintro rfl
    rfl

/-- A successful detailed market analysis needs a quote with a truthy P/E. -/
theorem create_detailed_ok_pe (stocks : List Stock) (analyses : List Analysis) (txt : String)
    (hok : create_detailed_market_analysis stocks analyses = Except.ok txt) :
    ∃ s ∈ stocks, truthyQ s.pe_ratio := by
  by_contra hno
  push_neg at hno
  have hpe : stocks.filter (fun s => truthyQ s.pe_ratio) = [] :=
    List.filter_eq_nil_iff.mpr (by simpa using hno)
  simp [create_detailed_market_analysis, hpe] at hok

/-- Without any truthy P/E the detailed market analysis divides by zero. -/
theorem create_detailed_no_pe (stocks : List Stock) (analyses : List Analysis)
    (hno : ∀ s ∈ stocks, ¬ truthyQ s.pe_ratio) :
    create_detailed_market_analysis stocks analyses = Except.error PyError.zeroDivisionError := by
  have hpe : stocks.filter (fun s => truthyQ s.pe_ratio) = [] :=
    List.filter_eq_nil_iff.mpr (by simpa using hno)
  simp [create_detailed_market_analysis, hpe]

/-- C10: `generate_daily_overview` succeeds only when some quote has a defined
(truthy) P/E ratio; on a non-empty quote list with no P/E anywhere it fails,
and when additionally some quote has a defined percentage change (so the
top-gainer access succeeds first), the failure is precisely the
`ZeroDivisionError` of the average-P/E computation — the undefined average is
never rendered as absent. -/
theorem C10_overview_requires_pe (stocks : List Stock) (analyses : List Analysis) :
    (∀ rep, generate_daily_overview stocks analyses = Except.ok rep →
      ∃ s ∈ stocks, truthyQ s.pe_ratio) ∧
    (stocks ≠ [] → (∀ s ∈ stocks, ¬ truthyQ s.pe_ratio) →
      ∃ e, generate_daily_overview stocks analyses = Except.error e) ∧
    ((∃ s ∈ stocks, truthyQ s.price_change_percent) →
      (∀ s ∈ stocks, ¬ truthyQ s.pe_ratio) →
      generate_daily_overview stocks analyses = Except.error PyError.zeroDivisionError) := by
  have key3 : (∃ s ∈ stocks, truthyQ s.price_change_percent) →
      (∀ s ∈ stocks, ¬ truthyQ s.pe_ratio) →
      generate_daily_overview stocks analyses = Except.error PyError.zeroDivisionError := by
    rintro ⟨s0, hs0, hs0t⟩ hno
    have hcd := create_detailed_no_pe stocks analyses hno
    have hfne : stocks.filter (fun s => truthyQ s.price_change_percent) ≠ [] := by
      intro hnil
      have := List.filter_eq_nil_iff.mp hnil s0 hs0
      simp [hs0t] at this
    obtain ⟨g, gs, hg⟩ := List.exists_cons_of_ne_nil
      (fun h0 => hfne ((sortDescBy_eq_nil_iff pcpVal _).mp h0))
    obtain ⟨l0, ls, hl⟩ := List.exists_cons_of_ne_nil
      (fun h0 => hfne ((sortAscBy_eq_nil_iff pcpVal _).mp h0))
    have hghead :
        ((sortDescBy pcpVal (stocks.filter (fun s => truthyQ s.price_change_percent))).take
          3).head? = some g := by
      rw [hg]
      rfl
    have hlhead :
        ((sortAscBy pcpVal (stocks.filter (fun s => truthyQ s.price_change_percent))).take
          3).head? = some l0 := by
      rw [hl]
      rfl
    simp only [generate_daily_overview, hghead, hlhead, hcd]
  refine ⟨?_, ?_, key3⟩
  · intro rep hok
    simp only [generate_daily_overview] at hok
    split at hok
    · rename_i tg tl hgh hlh
      split at hok
      · exact Except.noConfusion hok
      · rename_i detailed heq
        exact create_detailed_ok_pe stocks analyses detailed heq
    · exact Except.noConfusion hok
  · intro hne hno
    by_cases hpcp : ∃ s ∈ stocks, truthyQ s.price_change_percent
    · exact ⟨PyError.zeroDivisionError, key3 hpcp hno⟩
    · push_neg at hpcp
      have hf : stocks.filter (fun s => truthyQ s.price_change_percent) = [] :=
        List.filter_eq_nil_iff.mpr (by simpa using hpcp)
      exact ⟨PyError.indexError, by simp [generate_daily_overview, hf, sortDescBy, sortAscBy]⟩

/-- C10 witness: a one-quote list with a +15% change and no P/E makes
`generate_daily_overview` fail with the division by zero, via the main
theorem. -/
theorem C10_witness :
    generate_daily_overview [stockUp15] [] = Except.error PyError.zeroDivisionError := by
  refine (C10_overview_requires_pe [stockUp15] []).2.2 ⟨stockUp15, ?_, ?_⟩ ?_
  · simp
  · norm_num [truthyQ, Stock.price_change_percent, stockUp15]
  · intro s hs
    simp only [List.mem_singleton] at hs
    subst hs
    simp [truthyQ, stockUp15]

end StockAgent

